import Mathlib

/-!
Verification development for the outreach-email generation workflow of
`src/src/tasks/generate_emails.py` (class `EmailGenerator`).

The Python workflow is shallowly embedded: the mutable LangGraph state dict
becomes an explicit record `EmailState`, each graph node becomes a total Lean
function on that record, Python dictionaries become association lists over a
JSON-like `Value` type, and the external collaborators (the text-generation
model and the three external-lookup services) become an explicit environment
`Env` of oracle functions.  Python exceptions inside a stage are modelled with
`Except`: a stage catches the failure of its own body and writes it into the
`error` field, exactly as the per-stage try/except blocks do in the source.

The external-lookup collaborator classes (GitHubAPI, CompanyNewsAPI,
WebScraper, LinkedInAPI) are imported by the source but their definitions are
not part of the repository snapshot; they are modelled from the spec as
environment oracles (see `Env`).
-/

/-- A JSON-like value, modelling the loosely typed Python data the workflow
moves around (strings, ints, booleans, None, lists, dicts). -/
inductive Value where
  | vstr  : String → Value
  | vint  : Int → Value
  | vbool : Bool → Value
  | vnull : Value
  | vlist : List Value → Value
  | vdict : List (String × Value) → Value

/-- A Python dictionary with string keys, as an association list; lookups take
the first binding, matching the unique-key discipline of Python dicts. -/
abbrev Dict := List (String × Value)

/-- `d.get(k)`: the value bound to `k`, if any. -/
def dget? (d : Dict) (k : String) : Option Value :=
  (d.find? (fun p => p.1 == k)).map (fun p => p.2)

/-- `d.get(k, v)`: lookup with a default. -/
def dgetD (d : Dict) (k : String) (v : Value) : Value :=
  (dget? d k).getD v

/-- `d[k]`: lookup that raises `KeyError(k)` when the key is absent; the
error text mirrors the `str` of a Python `KeyError`, which is the missing
key in single quotes. -/
def dgetE (d : Dict) (k : String) : Except String Value :=
  match dget? d k with
  | some v => Except.ok v
  | none => Except.error ("\x27" ++ k ++ "\x27")

/-- The keys of a dict, in order. -/
def dkeys (d : Dict) : List String := d.map (fun p => p.1)

/-- Python truthiness for the values the workflow tests with `if not x`. -/
def pyTruthy : Value → Bool
  | Value.vstr s => !(s == "")
  | Value.vint n => !(n == 0)
  | Value.vbool b => b
  | Value.vnull => false
  | Value.vlist l => !l.isEmpty
  | Value.vdict d => !d.isEmpty

mutual

/-- Python `repr` of a value, used when values are interpolated into the
prompt context string (f-strings call `str`, which is `repr` on containers). -/
def pyRepr : Value → String
  | Value.vstr s => "\x27" ++ s ++ "\x27"
  | Value.vint n => toString n
  | Value.vbool b => cond b "True" "False"
  | Value.vnull => "None"
  | Value.vlist l => "[" ++ String.intercalate ", " (pyReprList l) ++ "]"
  | Value.vdict d => "\x7b" ++ String.intercalate ", " (pyReprDict d) ++ "\x7d"

/-- `pyRepr` mapped over a list of values. -/
def pyReprList : List Value → List String
  | [] => []
  | v :: vs => pyRepr v :: pyReprList vs

/-- `pyRepr` mapped over the entries of a dict. -/
def pyReprDict : List (String × Value) → List String
  | [] => []
  | (k, v) :: ps => ("\x27" ++ k ++ "\x27: " ++ pyRepr v) :: pyReprDict ps

end

/-- Python `str` of a value: the raw text for strings, `repr` otherwise. -/
def pyStr : Value → String
  | Value.vstr s => s
  | v => pyRepr v

/-- Python slicing `x[:2]`, defined on lists and strings and a `TypeError`
otherwise, as in `state["contextual_data"]["sender_experience"][:2]`. -/
def pySlice2 : Value → Except String Value
  | Value.vlist l => Except.ok (Value.vlist (l.take 2))
  | Value.vstr s => Except.ok (Value.vstr (s.take 2))
  | _ => Except.error "TypeError: value does not support slicing"

/-- The LangGraph state record (`EmailState` TypedDict in the source).  On
every state built by `generate_email` all keys are present, so the three
request dicts and the enum fields are plain fields here; `email_type` and
`tone` are carried as their string enum values. -/
structure EmailState where
  receiver_details : Dict
  sender_details : Dict
  job_information : Dict
  email_type : String
  tone : String
  contextual_data : Dict
  generated_email : Option String
  email_subject : Option String
  error : Option String

/-- One invocation of the text-generation model: which prompt template the
chain uses plus the data interpolated into it (the dict passed to
`chain.ainvoke`). -/
structure ModelCall where
  template : String
  params : Dict

/-- Modelled from the spec: the external collaborators of the workflow.  The
text-generation backend (`model`, indexed by an invocation counter so that a
stateful or nondeterministic backend can be expressed) and the external-lookup
services used by the Contextual variant.  The lookup classes GitHubAPI,
CompanyNewsAPI, WebScraper and LinkedInAPI are referenced by the source but
missing from the repository snapshot; per the spec each lookup takes an
identifying key and returns a bucket of loosely typed records, or fails. -/
structure Env where
  get_user_info : Value → Except String Value
  get_user_repos : Value → Except String Value
  get_user_activity : Value → Except String Value
  search_company_news : Value → Except String Value
  get_company_tech_news : Value → Except String Value
  scrape_company_website : Value → Except String Value
  search_tech_events : Value → Except String Value
  get_company_updates : Value → Except String Value
  model : Nat → ModelCall → Except String String

/-- `_validate_input`: fails the state (without throwing) when one of the
three request dicts is empty, reporting the first missing field, in the order
of the `required_fields` loop.  The defaulting branches of the source
(`email_type`, `tone`, `contextual_data` when absent) never fire on states
built by `generate_email`, where every key is present. -/
def validate_input (s : EmailState) : EmailState :=
  if s.receiver_details.isEmpty then
    { s with error := some "Validation error: Missing required field: receiver_details" }
  else if s.sender_details.isEmpty then
    { s with error := some "Validation error: Missing required field: sender_details" }
  else if s.job_information.isEmpty then
    { s with error := some "Validation error: Missing required field: job_information" }
  else s

/-- The empty-default bucket returned by `_fetch_github_data` when the
username is missing or the fetch fails. -/
def github_empty_default : Dict :=
  [("recent_commits", Value.vlist []), ("top_languages", Value.vlist []),
   ("popular_repos", Value.vlist []), ("contribution_graph", Value.vdict [])]

/-- The empty-default bucket returned by `_fetch_company_news` when the
company name is missing or the fetch fails. -/
def company_news_empty_default : Dict :=
  [("recent_news", Value.vlist []), ("tech_announcements", Value.vlist []),
   ("company_events", Value.vlist [])]

/-- The empty-default bucket returned by `_fetch_linkedin_data` when the
company name is missing or the fetch fails. -/
def linkedin_empty_default : Dict :=
  [("receiver_posts", Value.vlist []), ("company_updates", Value.vlist []),
   ("shared_connections", Value.vlist [])]

/-- `_fetch_github_data`: yields the empty default when the username is
absent or falsy, gathers the three user fetches otherwise, and catches any
fetch failure locally, returning the empty default. -/
def fetch_github_data (env : Env) (s : EmailState) : Dict :=
  match dget? s.sender_details "github_username" with
  | none => github_empty_default
  | some u =>
    if !pyTruthy u then github_empty_default
    else
      match env.get_user_info u, env.get_user_repos u, env.get_user_activity u with
      | Except.ok a, Except.ok b, Except.ok c =>
          [("user_info", a), ("repositories", b), ("activity", c)]
      | _, _, _ => github_empty_default

/-- `_fetch_company_news`: empty default when the company name is missing or
falsy, four gathered fetches otherwise, failures caught locally. -/
def fetch_company_news (env : Env) (s : EmailState) : Dict :=
  let company := dgetD s.job_information "company" (Value.vstr "")
  if !pyTruthy company then company_news_empty_default
  else
    match env.search_company_news company, env.get_company_tech_news company,
          env.scrape_company_website company, env.search_tech_events company with
    | Except.ok n, Except.ok t, Except.ok w, Except.ok e =>
        [("general_news", n), ("tech_news", t), ("website_info", w), ("events", e)]
    | _, _, _, _ => company_news_empty_default

/-- `_fetch_linkedin_data`: empty default when the company name is missing or
falsy, one fetch otherwise, failures caught locally. -/
def fetch_linkedin_data (env : Env) (s : EmailState) : Dict :=
  let company := dgetD s.job_information "company" (Value.vstr "")
  if !pyTruthy company then linkedin_empty_default
  else
    match env.get_company_updates company with
    | Except.ok u =>
        [("company_updates", u), ("receiver_posts", Value.vlist []),
         ("shared_connections", Value.vlist [])]
    | Except.error _ => linkedin_empty_default

/-- The core personalization fields assembled by `_extract_context` for the
Personalized and Contextual variants (pure `.get` calls with defaults). -/
def core_context_fields (s : EmailState) : Dict :=
  [("sender_skills", dgetD s.sender_details "technical_skills" (Value.vdict [])),
   ("sender_experience", dgetD s.sender_details "experience" (Value.vlist [])),
   ("sender_projects", dgetD s.sender_details "projects" (Value.vlist [])),
   ("job_requirements", dgetD s.job_information "required_skills" (Value.vstr "")),
   ("job_preferred", dgetD s.job_information "preferred_skills" (Value.vstr "")),
   ("company_name", dgetD s.job_information "company" (Value.vstr "")),
   ("job_title", dgetD s.job_information "job_title" (Value.vstr "")),
   ("receiver_name", dgetD s.receiver_details "name" (Value.vstr "")),
   ("receiver_title", dgetD s.receiver_details "job_title" (Value.vstr ""))]

/-- `_extract_context`: a passthrough unless the email type is personalized
or contextual; assembles the core fields, and for the contextual variant
additionally merges the three external-lookup buckets (each internally
failure-proof, see the fetch functions). -/
def extract_context (env : Env) (s : EmailState) : EmailState :=
  if s.email_type == "personalized" || s.email_type == "contextual" then
    let base := core_context_fields s
    let cd :=
      if s.email_type == "contextual" then
        base ++ [("github_data", Value.vdict (fetch_github_data env s)),
                 ("company_news", Value.vdict (fetch_company_news env s)),
                 ("linkedin_data", Value.vdict (fetch_linkedin_data env s))]
      else base
    { s with contextual_data := cd }
  else s

/-- `_build_context_message`: the system-context string interpolated from job
and sender fields with N/A defaults. -/
def build_context_message (s : EmailState) : String :=
  "Job Information: Title: " ++ pyStr (dgetD s.job_information "job_title" (Value.vstr "N/A"))
  ++ " Company: " ++ pyStr (dgetD s.job_information "company" (Value.vstr "N/A"))
  ++ " Location: " ++ pyStr (dgetD s.job_information "location" (Value.vstr "N/A"))
  ++ " Department: " ++ pyStr (dgetD s.job_information "department" (Value.vstr "N/A"))
  ++ " Experience Level: " ++ pyStr (dgetD s.job_information "experience_level" (Value.vstr "N/A"))
  ++ " Sender Information: Name: " ++ pyStr (dgetD s.sender_details "name" (Value.vstr "N/A"))
  ++ " Email: " ++ pyStr (dgetD s.sender_details "email" (Value.vstr "N/A"))
  ++ " Phone: " ++ pyStr (dgetD s.sender_details "phone" (Value.vstr "N/A"))
  ++ " Key Accomplishments: " ++ pyStr (dgetD s.sender_details "key_accomplishments" (Value.vstr "N/A"))

/-- The six state lookups shared by all three generation strategies, in the
evaluation order of the `ainvoke` argument dict (receiver name, receiver
title, company, sender name, sender email, job title); each raises a
KeyError on a missing key, exactly as the `state[...][...]` subscripts do. -/
structure BaseFields where
  receiver_name : Value
  receiver_title : Value
  company : Value
  sender_name : Value
  sender_email : Value
  job_title : Value

/-- Evaluate the six shared lookups, propagating the first failure. -/
def base_email_fields (s : EmailState) : Except String BaseFields :=
  match dgetE s.receiver_details "name", dgetE s.receiver_details "job_title",
        dgetE s.job_information "company", dgetE s.sender_details "name",
        dgetE s.sender_details "email", dgetE s.job_information "job_title" with
  | Except.ok rn, Except.ok rt, Except.ok c, Except.ok sn, Except.ok se, Except.ok jt =>
      Except.ok { receiver_name := rn, receiver_title := rt, company := c,
                  sender_name := sn, sender_email := se, job_title := jt }
  | Except.error e, _, _, _, _, _ => Except.error e
  | _, Except.error e, _, _, _, _ => Except.error e
  | _, _, Except.error e, _, _, _ => Except.error e
  | _, _, _, Except.error e, _, _ => Except.error e
  | _, _, _, _, Except.error e, _ => Except.error e
  | _, _, _, _, _, Except.error e => Except.error e

/-- The model invocation assembled by `_generate_simple_email` (prompt
template plus the `ainvoke` argument dict, in source order). -/
def simple_email_call (s : EmailState) : Except String ModelCall :=
  match base_email_fields s with
  | Except.error e => Except.error e
  | Except.ok b =>
      let ps : Dict :=
        [("context", Value.vstr (build_context_message s)),
         ("receiver_name", b.receiver_name), ("receiver_title", b.receiver_title),
         ("company", b.company), ("sender_name", b.sender_name),
         ("sender_email", b.sender_email), ("job_title", b.job_title),
         ("tone", Value.vstr s.tone)]
      Except.ok { template := "simple", params := ps }

/-- The model invocation assembled by `_generate_personalized_email`: the six
shared lookups, then the contextual-data subscripts in source order
(`sender_skills`, then `sender_experience` sliced to its first two entries,
then `job_requirements`, `job_preferred`).  `json.dumps` is modelled as the
identity on the structured value: only which data is interpolated matters. -/
def personalized_email_call (s : EmailState) : Except String ModelCall :=
  match base_email_fields s with
  | Except.error e => Except.error e
  | Except.ok b =>
    match dgetE s.contextual_data "sender_skills",
          dgetE s.contextual_data "sender_experience" with
    | Except.ok skills, Except.ok expAll =>
      match pySlice2 expAll with
      | Except.error e => Except.error e
      | Except.ok exp2 =>
        match dgetE s.contextual_data "job_requirements",
              dgetE s.contextual_data "job_preferred" with
        | Except.ok reqs, Except.ok pref =>
            let ps : Dict :=
              [("context", Value.vstr (build_context_message s)),
               ("receiver_name", b.receiver_name), ("receiver_title", b.receiver_title),
               ("company", b.company), ("sender_name", b.sender_name),
               ("sender_email", b.sender_email), ("job_title", b.job_title),
               ("tone", Value.vstr s.tone),
               ("sender_skills", skills), ("sender_experience", exp2),
               ("job_requirements", reqs), ("job_preferred", pref)]
            Except.ok { template := "personalized", params := ps }
        | Except.error e, _ => Except.error e
        | _, Except.error e => Except.error e
    | Except.error e, _ => Except.error e
    | _, Except.error e => Except.error e

/-- The model invocation assembled by `_generate_contextual_email`: the six
shared lookups, then the three external-lookup buckets of the contextual
data (again with `json.dumps` modelled as the identity). -/
def contextual_email_call (s : EmailState) : Except String ModelCall :=
  match base_email_fields s with
  | Except.error e => Except.error e
  | Except.ok b =>
    match dgetE s.contextual_data "github_data",
          dgetE s.contextual_data "company_news",
          dgetE s.contextual_data "linkedin_data" with
    | Except.ok g, Except.ok cn, Except.ok li =>
        let ps : Dict :=
          [("context", Value.vstr (build_context_message s)),
           ("receiver_name", b.receiver_name), ("receiver_title", b.receiver_title),
           ("company", b.company), ("sender_name", b.sender_name),
           ("sender_email", b.sender_email), ("job_title", b.job_title),
           ("tone", Value.vstr s.tone),
           ("github_data", g), ("company_news", cn), ("linkedin_data", li)]
        Except.ok { template := "contextual", params := ps }
    | Except.error e, _, _ => Except.error e
    | _, Except.error e, _ => Except.error e
    | _, _, Except.error e => Except.error e

/-- `_generate_simple_email`: assemble the call; on success invoke the model
(consuming one invocation of the counter) and store the body; any failure of
the body is caught and written to `error` with the strategy tag. -/
def generate_simple_email (env : Env) (s : EmailState) (n : Nat) : EmailState × Nat :=
  match simple_email_call s with
  | Except.error e =>
      ({ s with error := some ("Simple email generation error: " ++ e) }, n)
  | Except.ok call =>
    match env.model n call with
    | Except.ok text => ({ s with generated_email := some text }, n + 1)
    | Except.error e =>
        ({ s with error := some ("Simple email generation error: " ++ e) }, n + 1)

/-- `_generate_personalized_email`, with the same catch-and-record shape. -/
def generate_personalized_email (env : Env) (s : EmailState) (n : Nat) : EmailState × Nat :=
  match personalized_email_call s with
  | Except.error e =>
      ({ s with error := some ("Personalized email generation error: " ++ e) }, n)
  | Except.ok call =>
    match env.model n call with
    | Except.ok text => ({ s with generated_email := some text }, n + 1)
    | Except.error e =>
        ({ s with error := some ("Personalized email generation error: " ++ e) }, n + 1)

/-- `_generate_contextual_email`, with the same catch-and-record shape. -/
def generate_contextual_email (env : Env) (s : EmailState) (n : Nat) : EmailState × Nat :=
  match contextual_email_call s with
  | Except.error e =>
      ({ s with error := some ("Contextual email generation error: " ++ e) }, n)
  | Except.ok call =>
    match env.model n call with
    | Except.ok text => ({ s with generated_email := some text }, n + 1)
    | Except.error e =>
        ({ s with error := some ("Contextual email generation error: " ++ e) }, n + 1)

/-- Truthiness of the `error` field as tested by `if state.get("error")` in
the finalizer: set and non-empty. -/
def errTruthy : Option String → Bool
  | none => false
  | some e => !(e == "")

/-- The subject-line model invocation assembled by `_finalize_email`. -/
def subject_call (s : EmailState) : Except String ModelCall :=
  match dgetE s.job_information "job_title", dgetE s.job_information "company",
        dgetE s.sender_details "name" with
  | Except.ok jt, Except.ok c, Except.ok sn =>
      let ps : Dict :=
        [("job_title", jt), ("company", c), ("sender_name", sn),
         ("tone", Value.vstr s.tone)]
      Except.ok { template := "subject", params := ps }
  | Except.error e, _, _ => Except.error e
  | _, Except.error e, _ => Except.error e
  | _, _, Except.error e => Except.error e

/-- `_finalize_email`: returns the state unchanged when a truthy error is
already recorded; otherwise generates the subject line, storing its trimmed
text, and catches its own failures into `error`. -/
def finalize_email (env : Env) (s : EmailState) (n : Nat) : EmailState × Nat :=
  if errTruthy s.error then (s, n)
  else
    match subject_call s with
    | Except.error e =>
        ({ s with error := some ("Email finalization error: " ++ e) }, n)
    | Except.ok call =>
      match env.model n call with
      | Except.ok text => ({ s with email_subject := some text.trim }, n + 1)
      | Except.error e =>
          ({ s with error := some ("Email finalization error: " ++ e) }, n + 1)

/-- The three generation nodes of the workflow graph. -/
inductive GenNode where
  | simple
  | personalized
  | contextual

/-- `_route_email_type` combined with the conditional-edge mapping: the three
string enum values map to the three disjoint generation nodes; any other
value falls outside the mapping. -/
def route_email_type (et : String) : Option GenNode :=
  if et == "simple" then some GenNode.simple
  else if et == "personalized" then some GenNode.personalized
  else if et == "contextual" then some GenNode.contextual
  else none

/-- Dispatch to the routed generation node. -/
def run_generate (g : GenNode) (env : Env) (s : EmailState) (n : Nat) : EmailState × Nat :=
  match g with
  | GenNode.simple => generate_simple_email env s n
  | GenNode.personalized => generate_personalized_email env s n
  | GenNode.contextual => generate_contextual_email env s n

/-- Modelled from the spec: the graph executor raises an engine-level
exception when the routing function returns a value outside the
conditional-edge mapping; the exception text itself is internal to the
executor (LangGraph), which is not part of the repository. -/
def unknown_branch_message (et : String) : String :=
  "unknown branch target " ++ et

/-- One walk of the compiled graph from a start state (`workflow.ainvoke`):
Validate, ExtractContext, the routed Generate node, Finalize.  The result is
`Except.error` exactly when the walk itself raises (unknown email type);
every stage failure is recorded on the state instead.  The natural number
threads the count of text-generation invocations. -/
def run_workflow (env : Env) (s0 : EmailState) (n : Nat) :
    Except String (EmailState × Nat) :=
  let s1 := validate_input s0
  let s2 := extract_context env s1
  match route_email_type s2.email_type with
  | none => Except.error (unknown_branch_message s2.email_type)
  | some g =>
    let p := run_generate g env s2 n
    Except.ok (finalize_email env p.1 p.2)

/-- The initial state built by `generate_email` from the request: every key
present, `contextual_data` empty, no body, no subject, no error. -/
def initial_state (receiver sender job : Dict) (et tone : String) : EmailState :=
  { receiver_details := receiver, sender_details := sender, job_information := job,
    email_type := et, tone := tone, contextual_data := [],
    generated_email := none, email_subject := none, error := none }

/-- Render an optional string as a result value (`None` when absent). -/
def opt_value : Option String → Value
  | none => Value.vnull
  | some s => Value.vstr s

/-- The public result dict built from the end state of a completed walk:
`success` is the `is None` test on the recorded error, and the remaining
five keys echo the end state. -/
def state_to_result (r : EmailState) : Dict :=
  [("success", Value.vbool r.error.isNone),
   ("email_subject", opt_value r.email_subject),
   ("email_body", opt_value r.generated_email),
   ("email_type", Value.vstr r.email_type),
   ("tone", Value.vstr r.tone),
   ("error", opt_value r.error)]

/-- `generate_email` starting at the given invocation counter: runs the
workflow and maps the end state to the public result dict, or catches an
exception escaping the graph walk into a two-key failure dict, exactly as
the try/except around `workflow.ainvoke` does. -/
def generate_email_from (env : Env) (n : Nat) (receiver sender job : Dict)
    (et tone : String) : Dict × Nat :=
  match run_workflow env (initial_state receiver sender job et tone) n with
  | Except.ok p => (state_to_result p.1, p.2)
  | Except.error e =>
    ([("success", Value.vbool false),
      ("error", Value.vstr ("Workflow execution error: " ++ e))], n)

/-- The public run operation `generate_email` of `EmailGenerator`. -/
def generate_email (env : Env) (receiver sender job : Dict) (et tone : String) : Dict :=
  (generate_email_from env 0 receiver sender job et tone).1

/-- Whether `sub` occurs as a contiguous run somewhere in the character
list `l`. -/
def char_run_in (sub : List Char) : List Char → Bool
  | [] => sub.isEmpty
  | c :: cs => sub.isPrefixOf (c :: cs) || char_run_in sub cs

/-- An error string mentions a name when the name occurs in it verbatim. -/
def mentions (s sub : String) : Bool :=
  char_run_in sub.toList s.toList

/-- The first required field reported missing by `_validate_input`, in the
order of its `required_fields` loop. -/
def first_missing_field (receiver sender _job : Dict) : String :=
  if receiver.isEmpty then "receiver_details"
  else if sender.isEmpty then "sender_details"
  else "job_information"

/-- The strategy tag prepended to a generation-stage error message. -/
def stage_error_tag : GenNode → String
  | GenNode.simple => "Simple email generation error: "
  | GenNode.personalized => "Personalized email generation error: "
  | GenNode.contextual => "Contextual email generation error: "

/-- A receiver dict carrying the keys every generation strategy subscripts
(name, job_title), followed by arbitrary further entries.  The universally
quantified theorems below range over all requests of this shape. -/
def mk_receiver (rn rt : String) (rest : Dict) : Dict :=
  ("name", Value.vstr rn) :: ("job_title", Value.vstr rt) :: rest

/-- A sender dict carrying the keys every generation strategy subscripts
(name, email), followed by arbitrary further entries. -/
def mk_sender (sn se : String) (rest : Dict) : Dict :=
  ("name", Value.vstr sn) :: ("email", Value.vstr se) :: rest

/-- A job dict carrying the keys every generation strategy subscripts
(company, job_title), followed by arbitrary further entries. -/
def mk_job (c jt : String) (rest : Dict) : Dict :=
  ("company", Value.vstr c) :: ("job_title", Value.vstr jt) :: rest

/-! Concrete sample requests and environments, used to instantiate the
claims on closed inputs. -/

/-- Sample receiver profile (the concrete scenario of the spec). -/
def sample_receiver : Dict :=
  [("name", Value.vstr "Alice"), ("job_title", Value.vstr "Engineering Manager"),
   ("email", Value.vstr "a@x.com")]

/-- Sample sender profile with three experience entries and a code-hosting
username. -/
def sample_sender : Dict :=
  [("name", Value.vstr "Bob"), ("email", Value.vstr "b@y.com"),
   ("phone", Value.vstr "555-0100"),
   ("github_username", Value.vstr "bob-dev"),
   ("technical_skills", Value.vdict [("programming_languages", Value.vlist [Value.vstr "Go"])]),
   ("experience", Value.vlist [Value.vstr "exp one", Value.vstr "exp two", Value.vstr "exp three"]),
   ("projects", Value.vlist [])]

/-- Sample job posting. -/
def sample_job : Dict :=
  [("company", Value.vstr "Acme"), ("job_title", Value.vstr "Backend Engineer"),
   ("required_skills", Value.vstr "Go, SQL"), ("preferred_skills", Value.vstr "AWS")]

/-- A deterministic environment whose lookups and text generation always
succeed with fixed outputs. -/
def ok_env : Env :=
  { get_user_info := fun _ => Except.ok (Value.vdict [("login", Value.vstr "bob-dev")]),
    get_user_repos := fun _ => Except.ok (Value.vlist [Value.vstr "repo-a"]),
    get_user_activity := fun _ => Except.ok (Value.vlist []),
    search_company_news := fun _ => Except.ok (Value.vlist [Value.vstr "news"]),
    get_company_tech_news := fun _ => Except.ok (Value.vlist []),
    scrape_company_website := fun _ => Except.ok (Value.vdict []),
    search_tech_events := fun _ => Except.ok (Value.vlist []),
    get_company_updates := fun _ => Except.ok (Value.vlist [Value.vstr "update"]),
    model := fun _ _ => Except.ok "Hello Alice..." }

/-- Like `ok_env` but the text-generation backend always fails. -/
def fail_model_env : Env :=
  { ok_env with model := fun _ _ => Except.error "always down" }

/-- Like `ok_env` but the text-generation backend always returns the empty
string. -/
def empty_output_env : Env :=
  { ok_env with model := fun _ _ => Except.ok "" }

/-- Like `ok_env` but the code-hosting user-info lookup always fails. -/
def github_down_env : Env :=
  { ok_env with get_user_info := fun _ => Except.error "rate limited" }

/-- An error value is considered recorded when it is set and non-empty (all
stage messages are non-empty, so this is the well-formedness the finalizer
truthiness test relies on). -/
def errSet (o : Option String) : Prop :=
  ∃ e, o = some e ∧ e ≠ ""

/-! Basic facts about strings, dict lookups and the stage functions, shared
by the claim theorems below. -/

theorem string_data_append (a b : String) : (a ++ b).data = a.data ++ b.data := by
  cases a; cases b; rfl

theorem string_append_ne_empty (p m : String) (hp : p.data ≠ []) : p ++ m ≠ "" := by
  intro h
  apply hp
  have hd : (p ++ m).data = p.data ++ m.data := string_data_append p m
  rw [h] at hd
  exact (List.append_eq_nil.mp hd.symm).1

theorem errTruthy_of_errSet (o : Option String) (h : errSet o) : errTruthy o = true := by
  obtain ⟨e, he, hne⟩ := h
  subst he
  simp [errTruthy, hne]

theorem char_run_in_append_self (pre sub : List Char) :
    char_run_in sub (pre ++ sub) = true := by
  induction pre with
  | nil =>
    cases sub with
    | nil => rfl
    | cons c cs =>
      simp only [List.nil_append, char_run_in]
      have : (c :: cs).isPrefixOf (c :: cs) = true := by
        simp [List.isPrefixOf_iff_prefix]
      simp [this]
  | cons p ps ih =>
    simp only [List.cons_append, char_run_in, List.append_eq, ih, Bool.or_true]

theorem mentions_append_self (a b : String) : mentions (a ++ b) b = true := by
  unfold mentions
  have : (a ++ b).toList = a.toList ++ b.toList := by
    cases a; cases b; rfl
  rw [this]
  exact char_run_in_append_self a.toList b.toList

theorem validate_input_frame (s : EmailState) :
    (validate_input s).receiver_details = s.receiver_details ∧
    (validate_input s).sender_details = s.sender_details ∧
    (validate_input s).job_information = s.job_information ∧
    (validate_input s).email_type = s.email_type ∧
    (validate_input s).tone = s.tone ∧
    (validate_input s).contextual_data = s.contextual_data ∧
    (validate_input s).generated_email = s.generated_email ∧
    (validate_input s).email_subject = s.email_subject := by
  unfold validate_input
  repeat' split
  all_goals exact ⟨rfl, rfl, rfl, rfl, rfl, rfl, rfl, rfl⟩

theorem extract_context_frame (env : Env) (s : EmailState) :
    (extract_context env s).receiver_details = s.receiver_details ∧
    (extract_context env s).sender_details = s.sender_details ∧
    (extract_context env s).job_information = s.job_information ∧
    (extract_context env s).email_type = s.email_type ∧
    (extract_context env s).tone = s.tone ∧
    (extract_context env s).generated_email = s.generated_email ∧
    (extract_context env s).email_subject = s.email_subject ∧
    (extract_context env s).error = s.error := by
  unfold extract_context
  split <;> simp

theorem run_generate_cases (g : GenNode) (env : Env) (s : EmailState) (n : Nat) :
    (∃ t, (run_generate g env s n).1 = { s with generated_email := some t }) ∨
    (∃ m, (run_generate g env s n).1 = { s with error := some (stage_error_tag g ++ m) }) := by
  cases g <;>
    simp only [run_generate, generate_simple_email, generate_personalized_email,
      generate_contextual_email, stage_error_tag] <;>
    (split
     case _ e _ => exact Or.inr ⟨e, rfl⟩
     case _ call _ =>
       split
       case _ t _ => exact Or.inl ⟨t, rfl⟩
       case _ e _ => exact Or.inr ⟨e, rfl⟩)

theorem stage_error_tag_data_ne (g : GenNode) : (stage_error_tag g).data ≠ [] := by
  cases g <;> simp [stage_error_tag]

theorem run_generate_errSet (g : GenNode) (env : Env) (s : EmailState) (n : Nat)
    (h : errSet s.error) : errSet (run_generate g env s n).1.error := by
  rcases run_generate_cases g env s n with ⟨t, ht⟩ | ⟨m, hm⟩
  · rw [ht]; exact h
  · rw [hm]
    exact ⟨stage_error_tag g ++ m, rfl, string_append_ne_empty _ _ (stage_error_tag_data_ne g)⟩

theorem finalize_email_of_errSet (env : Env) (s : EmailState) (n : Nat)
    (h : errSet s.error) : finalize_email env s n = (s, n) := by
  unfold finalize_email
  rw [errTruthy_of_errSet s.error h]
  simp

theorem finalize_email_cases (env : Env) (s : EmailState) (n : Nat)
    (h : errTruthy s.error = false) :
    (∃ t, (finalize_email env s n).1 = { s with email_subject := some t }) ∨
    (∃ m, (finalize_email env s n).1
        = { s with error := some ("Email finalization error: " ++ m) }) := by
  unfold finalize_email
  rw [h]
  simp only [Bool.false_eq_true, if_false]
  split
  case _ e _ => exact Or.inr ⟨e, rfl⟩
  case _ call _ =>
    split
    case _ t _ => exact Or.inl ⟨t.trim, rfl⟩
    case _ e _ => exact Or.inr ⟨e, rfl⟩

theorem dgetE_of_empty (d : Dict) (k : String) (h : d.isEmpty = true) :
    dgetE d k = Except.error ("\x27" ++ k ++ "\x27") := by
  have : d = [] := by cases d with
    | nil => rfl
    | cons p ps => simp [List.isEmpty] at h
  subst this
  rfl

theorem base_email_fields_ok_receiver (s : EmailState) (b : BaseFields)
    (hb : base_email_fields s = Except.ok b) :
    dgetE s.receiver_details "name" = Except.ok b.receiver_name ∧
    dgetE s.sender_details "name" = Except.ok b.sender_name ∧
    dgetE s.job_information "company" = Except.ok b.company := by
  unfold base_email_fields at hb
  split at hb
  · cases hb
    exact ⟨by assumption, by assumption, by assumption⟩
  all_goals exact absurd hb (by simp)

theorem base_email_fields_error_of_empty (s : EmailState)
    (h : (s.receiver_details.isEmpty || s.sender_details.isEmpty
          || s.job_information.isEmpty) = true) :
    ∃ e, base_email_fields s = Except.error e := by
  cases hb : base_email_fields s with
  | error e => exact ⟨e, rfl⟩
  | ok b =>
    exfalso
    obtain ⟨h1, h2, h3⟩ := base_email_fields_ok_receiver s b hb
    rcases Bool.or_eq_true_iff.mp h with h4 | h5
    · rcases Bool.or_eq_true_iff.mp h4 with h6 | h7
      · rw [dgetE_of_empty _ _ h6] at h1; exact absurd h1 (by simp)
      · rw [dgetE_of_empty _ _ h7] at h2; exact absurd h2 (by simp)
    · rw [dgetE_of_empty _ _ h5] at h3; exact absurd h3 (by simp)

theorem simple_email_call_error_of_empty (s : EmailState)
    (h : (s.receiver_details.isEmpty || s.sender_details.isEmpty
          || s.job_information.isEmpty) = true) :
    ∃ e, simple_email_call s = Except.error e := by
  obtain ⟨e, he⟩ := base_email_fields_error_of_empty s h
  exact ⟨e, by simp [simple_email_call, he]⟩

theorem personalized_email_call_error_of_empty (s : EmailState)
    (h : (s.receiver_details.isEmpty || s.sender_details.isEmpty
          || s.job_information.isEmpty) = true) :
    ∃ e, personalized_email_call s = Except.error e := by
  obtain ⟨e, he⟩ := base_email_fields_error_of_empty s h
  exact ⟨e, by simp [personalized_email_call, he]⟩

theorem contextual_email_call_error_of_empty (s : EmailState)
    (h : (s.receiver_details.isEmpty || s.sender_details.isEmpty
          || s.job_information.isEmpty) = true) :
    ∃ e, contextual_email_call s = Except.error e := by
  obtain ⟨e, he⟩ := base_email_fields_error_of_empty s h
  exact ⟨e, by simp [contextual_email_call, he]⟩

theorem run_generate_error_of_empty (g : GenNode) (env : Env) (s : EmailState) (n : Nat)
    (h : (s.receiver_details.isEmpty || s.sender_details.isEmpty
          || s.job_information.isEmpty) = true) :
    ∃ m, (run_generate g env s n).1 = { s with error := some (stage_error_tag g ++ m) } := by
  cases g
  case simple =>
    obtain ⟨e, he⟩ := simple_email_call_error_of_empty s h
    exact ⟨e, by simp [run_generate, generate_simple_email, he, stage_error_tag]⟩
  case personalized =>
    obtain ⟨e, he⟩ := personalized_email_call_error_of_empty s h
    exact ⟨e, by simp [run_generate, generate_personalized_email, he, stage_error_tag]⟩
  case contextual =>
    obtain ⟨e, he⟩ := contextual_email_call_error_of_empty s h
    exact ⟨e, by simp [run_generate, generate_contextual_email, he, stage_error_tag]⟩

theorem pipeline_email_type (env : Env) (s0 : EmailState) :
    (extract_context env (validate_input s0)).email_type = s0.email_type := by
  rw [(extract_context_frame env (validate_input s0)).2.2.2.1,
      (validate_input_frame s0).2.2.2.1]

theorem run_workflow_ok (env : Env) (s0 : EmailState) (n : Nat) (g : GenNode)
    (hroute : route_email_type s0.email_type = some g) :
    run_workflow env s0 n
      = Except.ok (finalize_email env
          (run_generate g env (extract_context env (validate_input s0)) n).1
          (run_generate g env (extract_context env (validate_input s0)) n).2) := by
  simp only [run_workflow]
  rw [pipeline_email_type env s0, hroute]

theorem run_workflow_error (env : Env) (s0 : EmailState) (n : Nat)
    (hroute : route_email_type s0.email_type = none) :
    run_workflow env s0 n = Except.error (unknown_branch_message s0.email_type) := by
  simp only [run_workflow]
  rw [pipeline_email_type env s0, hroute]

theorem state_to_result_success (r : EmailState) :
    dget? (state_to_result r) "success" = some (Value.vbool r.error.isNone) := rfl

theorem state_to_result_subject (r : EmailState) :
    dget? (state_to_result r) "email_subject" = some (opt_value r.email_subject) := rfl

theorem state_to_result_body (r : EmailState) :
    dget? (state_to_result r) "email_body" = some (opt_value r.generated_email) := rfl

theorem state_to_result_error (r : EmailState) :
    dget? (state_to_result r) "error" = some (opt_value r.error) := rfl

theorem state_to_result_keys (r : EmailState) :
    dkeys (state_to_result r)
      = ["success", "email_subject", "email_body", "email_type", "tone", "error"] := rfl

/-- Claim C1, counterexample to the claim as stated: with an empty
receiver_details dict (and an otherwise fully populated request and an
always-succeeding backend), the final result has success equal to false, but
its error message is the generation-stage KeyError text, which does not
mention the missing field name receiver_details. -/
theorem claim_c1_counterexample :
    dget? (generate_email ok_env [] sample_sender sample_job "simple" "friendly") "success"
      = some (Value.vbool false)
    ∧ dget? (generate_email ok_env [] sample_sender sample_job "simple" "friendly") "error"
      = some (Value.vstr "Simple email generation error: \x27name\x27")
    ∧ mentions "Simple email generation error: \x27name\x27" "receiver_details" = false := by
  refine ⟨rfl, rfl, ?_⟩
  decide

/-- Claim C1 (amended): for every request in which receiver_details,
sender_details or job_information is missing or empty, the validation stage
records a validation error that mentions the missing field name without
throwing, and the final result has success equal to false; the final error
message, however, is overwritten by the downstream generation stage (see
claim C10), so it is the validation-stage error, not the final one, that
names the field. -/
theorem claim_c1_amended (env : Env) (rcv snd job : Dict) (et tone : String)
    (h : (rcv.isEmpty || snd.isEmpty || job.isEmpty) = true) :
    (validate_input (initial_state rcv snd job et tone)).error
      = some ("Validation error: Missing required field: "
              ++ first_missing_field rcv snd job)
    ∧ mentions ("Validation error: Missing required field: "
              ++ first_missing_field rcv snd job) (first_missing_field rcv snd job) = true
    ∧ dget? (generate_email env rcv snd job et tone) "success"
      = some (Value.vbool false) := by
  have hval : (validate_input (initial_state rcv snd job et tone)).error
      = some ("Validation error: Missing required field: "
              ++ first_missing_field rcv snd job) := by
    cases hr : rcv.isEmpty with
    | true => simp [validate_input, initial_state, first_missing_field, hr]
    | false =>
      cases hs : snd.isEmpty with
      | true => simp [validate_input, initial_state, first_missing_field, hr, hs]
      | false =>
        cases hj : job.isEmpty with
        | true => simp [validate_input, initial_state, first_missing_field, hr, hs, hj]
        | false => rw [hr, hs, hj] at h; simp at h
  refine ⟨hval, mentions_append_self _ _, ?_⟩
  have hs1 : errSet (validate_input (initial_state rcv snd job et tone)).error := by
    rw [hval]
    exact ⟨_, rfl, string_append_ne_empty _ _ (by decide)⟩
  have hs2 : errSet (extract_context env (validate_input
      (initial_state rcv snd job et tone))).error := by
    rw [(extract_context_frame env (validate_input
      (initial_state rcv snd job et tone))).2.2.2.2.2.2.2]
    exact hs1
  cases hroute : route_email_type et with
  | none =>
    have hw := run_workflow_error env (initial_state rcv snd job et tone) 0 hroute
    simp [generate_email, generate_email_from, hw, dget?]
  | some g =>
    have hw := run_workflow_ok env (initial_state rcv snd job et tone) 0 g hroute
    have h3 := run_generate_errSet g env (extract_context env (validate_input
      (initial_state rcv snd job et tone))) 0 hs2
    have hf := finalize_email_of_errSet env
      (run_generate g env (extract_context env (validate_input
        (initial_state rcv snd job et tone))) 0).1
      (run_generate g env (extract_context env (validate_input
        (initial_state rcv snd job et tone))) 0).2 h3
    rw [hf] at hw
    obtain ⟨e, he, _⟩ := h3
    simp only [generate_email, generate_email_from, hw, state_to_result_success, he,
      Option.isNone_some]

/-- Claim C1 witness: the amended theorem instantiated on an empty
receiver_details dict. -/
theorem claim_c1_witness :
    dget? (generate_email ok_env [] sample_sender sample_job "simple" "friendly") "success"
      = some (Value.vbool false) :=
  (claim_c1_amended ok_env [] sample_sender sample_job "simple" "friendly" rfl).2.2

/-- Claim C10 (confirmed): error recording is last-writer-wins.  A
generation stage whose body fails overwrites the error field with its own
tagged message regardless of the error already recorded (first conjunct,
where the state carries a prior error e0 that does not appear in the
output); concretely, on a request whose receiver_details is empty the
validation stage records the validation message, but the final result
carries the later generation-stage KeyError message, which differs from the
validation message (remaining conjuncts). -/
theorem claim_c10 (g : GenNode) (env : Env) (s : EmailState) (n : Nat) (e0 m : String)
    (h0 : s.error = some e0)
    (hb : base_email_fields s = Except.error m)
    (env2 : Env) (snd job : Dict) (tone : String) :
    (run_generate g env s n).1.error = some (stage_error_tag g ++ m)
    ∧ (validate_input (initial_state [] snd job "simple" tone)).error
        = some "Validation error: Missing required field: receiver_details"
    ∧ dget? (generate_email env2 [] snd job "simple" tone) "error"
        = some (Value.vstr "Simple email generation error: \x27name\x27")
    ∧ "Simple email generation error: \x27name\x27"
        ≠ "Validation error: Missing required field: receiver_details" := by
  refine ⟨?_, by simp [validate_input, initial_state], ?_, by decide⟩
  · cases g <;>
      simp [run_generate, generate_simple_email, generate_personalized_email,
        generate_contextual_email, simple_email_call, personalized_email_call,
        contextual_email_call, hb, stage_error_tag]
  · have hroute : route_email_type "simple" = some GenNode.simple := rfl
    have hw := run_workflow_ok env2 (initial_state [] snd job "simple" tone) 0
      GenNode.simple hroute
    have hrd : (extract_context env2 (validate_input
        (initial_state [] snd job "simple" tone))).receiver_details = [] := by
      rw [(extract_context_frame env2 (validate_input
            (initial_state [] snd job "simple" tone))).1,
          (validate_input_frame (initial_state [] snd job "simple" tone)).1]
      rfl
    have hbase : base_email_fields (extract_context env2 (validate_input
        (initial_state [] snd job "simple" tone))) = Except.error "\x27name\x27" := by
      unfold base_email_fields
      rw [hrd]
      simp [dgetE, dget?]
    have hgen : run_generate GenNode.simple env2 (extract_context env2 (validate_input
        (initial_state [] snd job "simple" tone))) 0
        = ({ extract_context env2 (validate_input (initial_state [] snd job "simple" tone))
             with error := some ("Simple email generation error: " ++ "\x27name\x27") }, 0) := by
      simp [run_generate, generate_simple_email, simple_email_call, hbase]
    rw [hgen] at hw
    have herr : errSet ({ extract_context env2 (validate_input
        (initial_state [] snd job "simple" tone))
        with error := some ("Simple email generation error: " ++ "\x27name\x27") } :
          EmailState).error :=
      ⟨_, rfl, string_append_ne_empty _ _ (by decide)⟩
    rw [finalize_email_of_errSet env2 _ 0 herr] at hw
    simp [generate_email, generate_email_from, hw, state_to_result_error, opt_value]

/-- Claim C10 witness: the overwrite instantiated on a state that already
carries a prior error and whose receiver_details is empty. -/
theorem claim_c10_witness :
    (run_generate GenNode.simple ok_env
      { initial_state [] sample_sender sample_job "simple" "friendly"
        with error := some "old error" } 0).1.error
      = some (stage_error_tag GenNode.simple ++ "\x27name\x27") :=
  (claim_c10 GenNode.simple ok_env
    { initial_state [] sample_sender sample_job "simple" "friendly"
      with error := some "old error" } 0 "old error" "\x27name\x27" rfl rfl
    ok_env sample_sender sample_job "friendly").1

/-- Claim C6 (confirmed): for every request whose email_type is outside the
routing map, the graph walk itself raises (it never reaches a generation
node or the finalizer), and the run operation surfaces this as the distinct
engine-level two-key failure result whose error text carries the
workflow-execution tag, not as a business error recorded on the state. -/
theorem claim_c6 (env : Env) (rcv snd job : Dict) (tone et : String)
    (h : route_email_type et = none) :
    run_workflow env (initial_state rcv snd job et tone) 0
      = Except.error (unknown_branch_message et)
    ∧ generate_email env rcv snd job et tone
      = [("success", Value.vbool false),
         ("error", Value.vstr ("Workflow execution error: " ++ unknown_branch_message et))]
    ∧ dkeys (generate_email env rcv snd job et tone) = ["success", "error"] := by
  have hw : run_workflow env (initial_state rcv snd job et tone) 0
      = Except.error (unknown_branch_message et) :=
    run_workflow_error env (initial_state rcv snd job et tone) 0 h
  refine ⟨hw, ?_, ?_⟩
  · simp [generate_email, generate_email_from, hw]
  · simp [generate_email, generate_email_from, hw, dkeys]

/-- Claim C6 witness: the unknown email type urgent on a fully populated
request. -/
theorem claim_c6_witness :
    generate_email ok_env sample_receiver sample_sender sample_job "urgent" "friendly"
      = [("success", Value.vbool false),
         ("error", Value.vstr ("Workflow execution error: "
           ++ unknown_branch_message "urgent"))] :=
  (claim_c6 ok_env sample_receiver sample_sender sample_job "friendly" "urgent" rfl).2.1

/-- Claim C7 (confirmed): for every valid request with email_type Simple the
context-extraction stage is a passthrough: it returns the validated state
unchanged, its output does not depend on the external-lookup environment
(no lookup is consulted), and contextual_data remains the empty default set
up for the run. -/
theorem claim_c7 (env env2 : Env) (rcv snd job : Dict) (tone : String)
    (h1 : rcv.isEmpty = false) (h2 : snd.isEmpty = false) (h3 : job.isEmpty = false) :
    extract_context env (validate_input (initial_state rcv snd job "simple" tone))
      = validate_input (initial_state rcv snd job "simple" tone)
    ∧ extract_context env (validate_input (initial_state rcv snd job "simple" tone))
      = extract_context env2 (validate_input (initial_state rcv snd job "simple" tone))
    ∧ (extract_context env (validate_input
        (initial_state rcv snd job "simple" tone))).contextual_data = [] := by
  have hv : validate_input (initial_state rcv snd job "simple" tone)
      = initial_state rcv snd job "simple" tone := by
    unfold validate_input initial_state
    simp [h1, h2, h3]
  have he : ∀ e : Env, extract_context e (initial_state rcv snd job "simple" tone)
      = initial_state rcv snd job "simple" tone := by
    intro e
    unfold extract_context initial_state
    simp
  rw [hv, he env, he env2]
  exact ⟨rfl, rfl, rfl⟩

/-- Claim C7 witness: the passthrough instantiated on the sample request
with two distinct environments. -/
theorem claim_c7_witness :
    extract_context ok_env (validate_input
      (initial_state sample_receiver sample_sender sample_job "simple" "friendly"))
      = validate_input (initial_state sample_receiver sample_sender sample_job
          "simple" "friendly") :=
  (claim_c7 ok_env fail_model_env sample_receiver sample_sender sample_job
    "friendly" rfl rfl rfl).1

theorem finalize_email_frame (env : Env) (s : EmailState) (n : Nat) :
    (finalize_email env s n).1.generated_email = s.generated_email ∧
    (finalize_email env s n).1.receiver_details = s.receiver_details ∧
    (finalize_email env s n).1.sender_details = s.sender_details ∧
    (finalize_email env s n).1.job_information = s.job_information ∧
    (finalize_email env s n).1.email_type = s.email_type ∧
    (finalize_email env s n).1.tone = s.tone ∧
    (finalize_email env s n).1.contextual_data = s.contextual_data := by
  unfold finalize_email
  split
  · exact ⟨rfl, rfl, rfl, rfl, rfl, rfl, rfl⟩
  · split
    · exact ⟨rfl, rfl, rfl, rfl, rfl, rfl, rfl⟩
    · split
      · exact ⟨rfl, rfl, rfl, rfl, rfl, rfl, rfl⟩
      · exact ⟨rfl, rfl, rfl, rfl, rfl, rfl, rfl⟩

/-- Claim C4, counterexample to the claim as stated: the generator is built
over a single text-generation backend, so when that backend always fails no
fallback can rescue the request; on a fully populated Simple request the
result has success equal to false with the strategy-tagged router error,
instead of the success the fallback law predicts. -/
theorem claim_c4_counterexample :
    dget? (generate_email fail_model_env sample_receiver sample_sender sample_job
      "simple" "friendly") "success" = some (Value.vbool false)
    ∧ dget? (generate_email fail_model_env sample_receiver sample_sender sample_job
      "simple" "friendly") "error"
      = some (Value.vstr "Simple email generation error: always down") :=
  ⟨rfl, rfl⟩

/-- Claim C4 (amended): the email generator has exactly one text-generation
backend and no fallback list.  If that backend fails at the generation
stage, the stage records a strategy-tagged error and the result has success
equal to false; when the backend succeeds, its output is stored verbatim as
the email body. -/
theorem claim_c4_amended (env1 env2 : Env) (rn rt sn se c jt tone : String)
    (rr sr jr : Dict) (m stubText : String)
    (hfail : ∀ n call, env1.model n call = Except.error m)
    (hok : ∀ n call, env2.model n call = Except.ok stubText) :
    dget? (generate_email env1 (mk_receiver rn rt rr) (mk_sender sn se sr)
      (mk_job c jt jr) "simple" tone) "success" = some (Value.vbool false)
    ∧ dget? (generate_email env1 (mk_receiver rn rt rr) (mk_sender sn se sr)
      (mk_job c jt jr) "simple" tone) "error"
      = some (Value.vstr ("Simple email generation error: " ++ m))
    ∧ dget? (generate_email env2 (mk_receiver rn rt rr) (mk_sender sn se sr)
      (mk_job c jt jr) "simple" tone) "email_body"
      = some (Value.vstr stubText) := by
  have hroute : route_email_type "simple" = some GenNode.simple := rfl
  have hv : validate_input (initial_state (mk_receiver rn rt rr) (mk_sender sn se sr)
      (mk_job c jt jr) "simple" tone)
      = initial_state (mk_receiver rn rt rr) (mk_sender sn se sr)
          (mk_job c jt jr) "simple" tone := by
    unfold validate_input initial_state mk_receiver mk_sender mk_job
    simp
  have hx : ∀ e : Env, extract_context e (initial_state (mk_receiver rn rt rr)
      (mk_sender sn se sr) (mk_job c jt jr) "simple" tone)
      = initial_state (mk_receiver rn rt rr) (mk_sender sn se sr)
          (mk_job c jt jr) "simple" tone := by
    intro e
    unfold extract_context initial_state
    simp
  obtain ⟨call, hc⟩ : ∃ call, simple_email_call (initial_state (mk_receiver rn rt rr)
      (mk_sender sn se sr) (mk_job c jt jr) "simple" tone) = Except.ok call := ⟨_, rfl⟩
  constructor
  · have hw := run_workflow_ok env1 (initial_state (mk_receiver rn rt rr)
      (mk_sender sn se sr) (mk_job c jt jr) "simple" tone) 0 GenNode.simple hroute
    rw [hv, hx env1] at hw
    have hgen : run_generate GenNode.simple env1 (initial_state (mk_receiver rn rt rr)
        (mk_sender sn se sr) (mk_job c jt jr) "simple" tone) 0
        = ({ initial_state (mk_receiver rn rt rr) (mk_sender sn se sr)
             (mk_job c jt jr) "simple" tone
             with error := some ("Simple email generation error: " ++ m) }, 1) := by
      simp [run_generate, generate_simple_email, hc, hfail 0 call]
    rw [hgen] at hw
    have herr : errSet (some ("Simple email generation error: " ++ m)) :=
      ⟨_, rfl, string_append_ne_empty _ _ (by decide)⟩
    rw [finalize_email_of_errSet env1 _ 1 herr] at hw
    simp [generate_email, generate_email_from, hw, state_to_result_success]
  constructor
  · have hw := run_workflow_ok env1 (initial_state (mk_receiver rn rt rr)
      (mk_sender sn se sr) (mk_job c jt jr) "simple" tone) 0 GenNode.simple hroute
    rw [hv, hx env1] at hw
    have hgen : run_generate GenNode.simple env1 (initial_state (mk_receiver rn rt rr)
        (mk_sender sn se sr) (mk_job c jt jr) "simple" tone) 0
        = ({ initial_state (mk_receiver rn rt rr) (mk_sender sn se sr)
             (mk_job c jt jr) "simple" tone
             with error := some ("Simple email generation error: " ++ m) }, 1) := by
      simp [run_generate, generate_simple_email, hc, hfail 0 call]
    rw [hgen] at hw
    have herr : errSet (some ("Simple email generation error: " ++ m)) :=
      ⟨_, rfl, string_append_ne_empty _ _ (by decide)⟩
    rw [finalize_email_of_errSet env1 _ 1 herr] at hw
    simp [generate_email, generate_email_from, hw, state_to_result_error, opt_value]
  · have hw := run_workflow_ok env2 (initial_state (mk_receiver rn rt rr)
      (mk_sender sn se sr) (mk_job c jt jr) "simple" tone) 0 GenNode.simple hroute
    rw [hv, hx env2] at hw
    have hgen : run_generate GenNode.simple env2 (initial_state (mk_receiver rn rt rr)
        (mk_sender sn se sr) (mk_job c jt jr) "simple" tone) 0
        = ({ initial_state (mk_receiver rn rt rr) (mk_sender sn se sr)
             (mk_job c jt jr) "simple" tone
             with generated_email := some stubText }, 1) := by
      simp [run_generate, generate_simple_email, hc, hok 0 call]
    rw [hgen] at hw
    simp only [generate_email, generate_email_from, hw, state_to_result_body]
    rw [(finalize_email_frame env2 _ 1).1]
    rfl

/-- Claim C4 witness: the amended behavior instantiated with an
always-failing and an always-succeeding backend on the sample request
shape. -/
theorem claim_c4_witness :
    dget? (generate_email fail_model_env
      (mk_receiver "Alice" "Engineering Manager" [])
      (mk_sender "Bob" "b@y.com" []) (mk_job "Acme" "Backend Engineer" [])
      "simple" "friendly") "success" = some (Value.vbool false) :=
  (claim_c4_amended fail_model_env ok_env "Alice" "Engineering Manager" "Bob" "b@y.com"
    "Acme" "Backend Engineer" "friendly" [] [] [] "always down" "Hello Alice..."
    (fun _ _ => rfl) (fun _ _ => rfl)).1

/-- Claim C3 (confirmed): once a non-empty error is recorded by the time
the generation stage has run, the finalizer returns the state unchanged, so
the result carries exactly that error, the subject is never generated (it
stays absent through the whole pipeline), and neither generated body nor
subject is overwritten by any later stage. -/
theorem claim_c3 (env : Env) (rcv snd job : Dict) (et tone : String) (g : GenNode)
    (hroute : route_email_type et = some g) (e : String) (he : e ≠ "")
    (h3 : (run_generate g env (extract_context env (validate_input
      (initial_state rcv snd job et tone))) 0).1.error = some e) :
    finalize_email env
      (run_generate g env (extract_context env (validate_input
        (initial_state rcv snd job et tone))) 0).1
      (run_generate g env (extract_context env (validate_input
        (initial_state rcv snd job et tone))) 0).2
      = run_generate g env (extract_context env (validate_input
          (initial_state rcv snd job et tone))) 0
    ∧ dget? (generate_email env rcv snd job et tone) "error" = some (Value.vstr e)
    ∧ dget? (generate_email env rcv snd job et tone) "email_subject" = some Value.vnull
    ∧ (run_generate g env (extract_context env (validate_input
        (initial_state rcv snd job et tone))) 0).1.email_subject = none := by
  have hsub : (run_generate g env (extract_context env (validate_input
      (initial_state rcv snd job et tone))) 0).1.email_subject = none := by
    have h1 : (run_generate g env (extract_context env (validate_input
        (initial_state rcv snd job et tone))) 0).1.email_subject
        = (extract_context env (validate_input
            (initial_state rcv snd job et tone))).email_subject := by
      rcases run_generate_cases g env (extract_context env (validate_input
        (initial_state rcv snd job et tone))) 0 with ⟨t, ht⟩ | ⟨m, hm⟩
      · rw [ht]
      · rw [hm]
    rw [h1,
      (extract_context_frame env (validate_input
        (initial_state rcv snd job et tone))).2.2.2.2.2.2.1,
      (validate_input_frame (initial_state rcv snd job et tone)).2.2.2.2.2.2.2]
    rfl
  have hE : errSet (run_generate g env (extract_context env (validate_input
      (initial_state rcv snd job et tone))) 0).1.error := ⟨e, h3, he⟩
  have hfin := finalize_email_of_errSet env
    (run_generate g env (extract_context env (validate_input
      (initial_state rcv snd job et tone))) 0).1
    (run_generate g env (extract_context env (validate_input
      (initial_state rcv snd job et tone))) 0).2 hE
  have hw := run_workflow_ok env (initial_state rcv snd job et tone) 0 g hroute
  rw [hfin] at hw
  refine ⟨hfin, ?_, ?_, hsub⟩
  · simp [generate_email, generate_email_from, hw, state_to_result_error, h3, opt_value]
  · simp [generate_email, generate_email_from, hw, state_to_result_subject, hsub, opt_value]

/-- Claim C3 witness: the failing backend makes the Simple stage record its
tagged error, and the finalizer propagates it unchanged with no subject. -/
theorem claim_c3_witness :
    dget? (generate_email fail_model_env sample_receiver sample_sender sample_job
      "simple" "friendly") "error"
      = some (Value.vstr "Simple email generation error: always down") :=
  (claim_c3 fail_model_env sample_receiver sample_sender sample_job "simple" "friendly"
    GenNode.simple rfl "Simple email generation error: always down" (by decide) rfl).2.1

/-- Claim C8 (confirmed): for every valid Personalized request, the model
invocation assembled by the Personalized strategy interpolates exactly the
first two entries of the sender experience list (at most two entries, for a
sender experience list of any length), alongside the sender skills and the
job required and preferred skills. -/
theorem claim_c8 (env : Env) (rn rt sn se c jt tone : String)
    (skills reqs prefs : Value) (exp : List Value) (rr sr jr : Dict) :
    ∃ call, personalized_email_call (extract_context env (validate_input (initial_state
        (mk_receiver rn rt rr)
        (mk_sender sn se (("technical_skills", skills)
          :: ("experience", Value.vlist exp) :: sr))
        (mk_job c jt (("required_skills", reqs) :: ("preferred_skills", prefs) :: jr))
        "personalized" tone))) = Except.ok call
      ∧ dget? call.params "sender_experience" = some (Value.vlist (exp.take 2))
      ∧ (exp.take 2).length ≤ 2
      ∧ dget? call.params "sender_skills" = some skills
      ∧ dget? call.params "job_requirements" = some reqs
      ∧ dget? call.params "job_preferred" = some prefs := by
  refine ⟨_, rfl, rfl, ?_, rfl, rfl, rfl⟩
  rw [List.length_take]
  exact Nat.min_le_left _ _

theorem run_generate_counter (g : GenNode) (env : Env) (s : EmailState)
    (hdet : ∀ n m call, env.model n call = env.model m call) (n m : Nat) :
    (run_generate g env s n).1 = (run_generate g env s m).1 := by
  cases g
  case simple =>
    cases hc : simple_email_call s with
    | error e => simp [run_generate, generate_simple_email, hc]
    | ok call =>
      simp only [run_generate, generate_simple_email, hc]
      rw [hdet n m call]
      cases env.model m call <;> rfl
  case personalized =>
    cases hc : personalized_email_call s with
    | error e => simp [run_generate, generate_personalized_email, hc]
    | ok call =>
      simp only [run_generate, generate_personalized_email, hc]
      rw [hdet n m call]
      cases env.model m call <;> rfl
  case contextual =>
    cases hc : contextual_email_call s with
    | error e => simp [run_generate, generate_contextual_email, hc]
    | ok call =>
      simp only [run_generate, generate_contextual_email, hc]
      rw [hdet n m call]
      cases env.model m call <;> rfl

theorem finalize_email_counter (env : Env) (s : EmailState)
    (hdet : ∀ n m call, env.model n call = env.model m call) (n m : Nat) :
    (finalize_email env s n).1 = (finalize_email env s m).1 := by
  cases he : errTruthy s.error with
  | true => simp [finalize_email, he]
  | false =>
    cases hc : subject_call s with
    | error e => simp [finalize_email, he, hc]
    | ok call =>
      simp only [finalize_email, he, hc, Bool.false_eq_true, if_false]
      rw [hdet n m call]
      cases env.model m call <;> rfl

theorem run_workflow_counter (env : Env) (s0 : EmailState)
    (hdet : ∀ n m call, env.model n call = env.model m call) (n m : Nat) :
    (run_workflow env s0 n).map Prod.fst = (run_workflow env s0 m).map Prod.fst := by
  cases hroute : route_email_type s0.email_type with
  | none => rw [run_workflow_error env s0 n hroute, run_workflow_error env s0 m hroute]
  | some g =>
    rw [run_workflow_ok env s0 n g hroute, run_workflow_ok env s0 m g hroute]
    simp only [Except.map]
    have h1 := run_generate_counter g env (extract_context env (validate_input s0)) hdet n m
    have h2 : (finalize_email env
        (run_generate g env (extract_context env (validate_input s0)) n).1
        (run_generate g env (extract_context env (validate_input s0)) n).2).1
        = (finalize_email env
            (run_generate g env (extract_context env (validate_input s0)) m).1
            (run_generate g env (extract_context env (validate_input s0)) m).2).1 := by
      rw [h1]
      exact finalize_email_counter env _ hdet _ _
    rw [h2]

theorem generate_email_from_counter (env : Env) (rcv snd job : Dict) (et tone : String)
    (hdet : ∀ n m call, env.model n call = env.model m call) (n m : Nat) :
    (generate_email_from env n rcv snd job et tone).1
      = (generate_email_from env m rcv snd job et tone).1 := by
  have h := run_workflow_counter env (initial_state rcv snd job et tone) hdet n m
  unfold generate_email_from
  cases hn : run_workflow env (initial_state rcv snd job et tone) n with
  | error e =>
    cases hm : run_workflow env (initial_state rcv snd job et tone) m with
    | error e2 => rw [hn, hm] at h; simp [Except.map] at h; rw [h]
    | ok p => rw [hn, hm] at h; simp [Except.map] at h
  | ok p =>
    cases hm : run_workflow env (initial_state rcv snd job et tone) m with
    | error e2 => rw [hn, hm] at h; simp [Except.map] at h
    | ok q => rw [hn, hm] at h; simp [Except.map] at h; simp [h]

/-- Claim C9 (confirmed): running the public operation twice on the same
request with a deterministic text-generation stub (one whose answer does not
depend on the invocation counter) yields identical subject and body fields;
the second run starts at the invocation counter where the first one
stopped. -/
theorem claim_c9 (env : Env) (rcv snd job : Dict) (et tone : String)
    (hdet : ∀ n m call, env.model n call = env.model m call) :
    dget? (generate_email_from env 0 rcv snd job et tone).1 "email_subject"
      = dget? (generate_email_from env
          (generate_email_from env 0 rcv snd job et tone).2
          rcv snd job et tone).1 "email_subject"
    ∧ dget? (generate_email_from env 0 rcv snd job et tone).1 "email_body"
      = dget? (generate_email_from env
          (generate_email_from env 0 rcv snd job et tone).2
          rcv snd job et tone).1 "email_body" := by
  have h := generate_email_from_counter env rcv snd job et tone hdet 0
    (generate_email_from env 0 rcv snd job et tone).2
  exact ⟨by rw [h], by rw [h]⟩

/-- Claim C9 witness: two consecutive runs on the sample request with the
deterministic stub backend agree on the subject field. -/
theorem claim_c9_witness :
    dget? (generate_email_from ok_env 0 sample_receiver sample_sender sample_job
      "simple" "friendly").1 "email_subject"
      = dget? (generate_email_from ok_env
          (generate_email_from ok_env 0 sample_receiver sample_sender sample_job
            "simple" "friendly").2
          sample_receiver sample_sender sample_job "simple" "friendly").1
          "email_subject" :=
  (claim_c9 ok_env sample_receiver sample_sender sample_job "simple" "friendly"
    (fun _ _ _ => rfl)).1

theorem errTruthy_true_some (o : Option String) (h : errTruthy o = true) :
    ∃ e, o = some e := by
  cases o with
  | none => simp [errTruthy] at h
  | some e => exact ⟨e, rfl⟩

/-- Claim C5, counterexample to the claim as stated: with a backend that
returns the empty string the result has success equal to true but an empty
email body (success does not imply non-empty subject and body), and on the
engine-exception path (unknown email type) the returned mapping has only the
two keys success and error instead of the six contract keys. -/
theorem claim_c5_counterexample :
    dget? (generate_email empty_output_env sample_receiver sample_sender sample_job
      "simple" "friendly") "success" = some (Value.vbool true)
    ∧ dget? (generate_email empty_output_env sample_receiver sample_sender sample_job
      "simple" "friendly") "email_body" = some (Value.vstr "")
    ∧ dkeys (generate_email ok_env sample_receiver sample_sender sample_job
      "urgent" "friendly") = ["success", "error"] :=
  ⟨rfl, rfl, rfl⟩

/-- Claim C5 (amended): every value returned from a completed graph walk
(known email type) has exactly the six contract keys with success true
exactly when error is null, and success implies subject and body are present
strings (possibly empty); when the graph walk itself raises (unknown email
type), the result carries only the two keys success and error. -/
theorem claim_c5_amended (env : Env) (rcv snd job : Dict) (et et2 tone : String)
    (g : GenNode) (hroute : route_email_type et = some g)
    (h2 : route_email_type et2 = none) (b : Bool)
    (hb : dget? (generate_email env rcv snd job et tone) "success"
      = some (Value.vbool b)) :
    dkeys (generate_email env rcv snd job et tone)
      = ["success", "email_subject", "email_body", "email_type", "tone", "error"]
    ∧ (b = true ↔ dget? (generate_email env rcv snd job et tone) "error"
        = some Value.vnull)
    ∧ (b = true → ∃ sb bd, dget? (generate_email env rcv snd job et tone) "email_subject"
          = some (Value.vstr sb)
        ∧ dget? (generate_email env rcv snd job et tone) "email_body"
          = some (Value.vstr bd))
    ∧ dkeys (generate_email env rcv snd job et2 tone) = ["success", "error"] := by
  have hw := run_workflow_ok env (initial_state rcv snd job et tone) 0 g hroute
  have hres : generate_email env rcv snd job et tone
      = state_to_result (finalize_email env
          (run_generate g env (extract_context env (validate_input
            (initial_state rcv snd job et tone))) 0).1
          (run_generate g env (extract_context env (validate_input
            (initial_state rcv snd job et tone))) 0).2).1 := by
    simp [generate_email, generate_email_from, hw]
  have hbval : b = (finalize_email env
      (run_generate g env (extract_context env (validate_input
        (initial_state rcv snd job et tone))) 0).1
      (run_generate g env (extract_context env (validate_input
        (initial_state rcv snd job et tone))) 0).2).1.error.isNone := by
    rw [hres, state_to_result_success] at hb
    exact ((Value.vbool.injEq _ _).mp (Option.some.injEq _ _ |>.mp hb)).symm
  refine ⟨by rw [hres]; exact state_to_result_keys _, ?_, ?_, ?_⟩
  · rw [hres, state_to_result_error]
    cases herr : (finalize_email env
        (run_generate g env (extract_context env (validate_input
          (initial_state rcv snd job et tone))) 0).1
        (run_generate g env (extract_context env (validate_input
          (initial_state rcv snd job et tone))) 0).2).1.error with
    | none =>
      rw [herr] at hbval
      simp [hbval, opt_value]
    | some e =>
      rw [herr] at hbval
      simp [hbval, opt_value]
  · intro hbt
    rw [hbt] at hbval
    have herrnone : (finalize_email env
        (run_generate g env (extract_context env (validate_input
          (initial_state rcv snd job et tone))) 0).1
        (run_generate g env (extract_context env (validate_input
          (initial_state rcv snd job et tone))) 0).2).1.error = none :=
      Option.isNone_iff_eq_none.mp hbval.symm
    cases htr : errTruthy (run_generate g env (extract_context env (validate_input
        (initial_state rcv snd job et tone))) 0).1.error with
    | true =>
      exfalso
      obtain ⟨e, he⟩ := errTruthy_true_some _ htr
      rw [finalize_email_of_errSet env _ _ ?hset] at herrnone
      case hset =>
        refine ⟨e, he, ?_⟩
        intro hcon
        rw [he, hcon] at htr
        simp [errTruthy] at htr
      rw [he] at herrnone
      exact Option.some_ne_none _ herrnone
    | false =>
      rcases finalize_email_cases env (run_generate g env (extract_context env
        (validate_input (initial_state rcv snd job et tone))) 0).1
        (run_generate g env (extract_context env (validate_input
          (initial_state rcv snd job et tone))) 0).2 htr with ⟨t, ht⟩ | ⟨m, hm⟩
      · rcases run_generate_cases g env (extract_context env (validate_input
          (initial_state rcv snd job et tone))) 0 with ⟨t2, ht2⟩ | ⟨m2, hm2⟩
        · refine ⟨t, t2, ?_, ?_⟩
          · rw [hres, state_to_result_subject, ht]
            rfl
          · rw [hres, state_to_result_body, ht, ht2]
            rfl
        · exfalso
          rw [ht, hm2] at herrnone
          exact Option.some_ne_none _ herrnone
      · exfalso
        rw [hm] at herrnone
        exact Option.some_ne_none _ herrnone
  · have hw2 : run_workflow env (initial_state rcv snd job et2 tone) 0
        = Except.error (unknown_branch_message et2) :=
      run_workflow_error env (initial_state rcv snd job et2 tone) 0 h2
    simp [generate_email, generate_email_from, hw2, dkeys]

/-- Claim C5 witness: the amended contract instantiated on the sample
request with the stub backend, a Simple walk and the unknown type urgent. -/
theorem claim_c5_witness :
    dkeys (generate_email ok_env sample_receiver sample_sender sample_job
      "simple" "friendly")
      = ["success", "email_subject", "email_body", "email_type", "tone", "error"] :=
  (claim_c5_amended ok_env sample_receiver sample_sender sample_job "simple" "urgent"
    "friendly" GenNode.simple rfl rfl true rfl).1

theorem fetch_github_default_on_failure (env : Env) (s : EmailState) (u msg : String)
    (hkey : dget? s.sender_details "github_username" = some (Value.vstr u))
    (hu : (u == "") = false)
    (hfail : env.get_user_info (Value.vstr u) = Except.error msg) :
    fetch_github_data env s = github_empty_default := by
  unfold fetch_github_data
  rw [hkey]
  cases h1 : env.get_user_repos (Value.vstr u) <;>
    cases h2 : env.get_user_activity (Value.vstr u) <;>
    simp [pyTruthy, hu, hfail, h1, h2]

theorem fetch_company_news_populated (env : Env) (s : EmailState) (c : String)
    (n1 n2 n3 n4 : Value)
    (hkey : dgetD s.job_information "company" (Value.vstr "") = Value.vstr c)
    (hc : (c == "") = false)
    (h1 : env.search_company_news (Value.vstr c) = Except.ok n1)
    (h2 : env.get_company_tech_news (Value.vstr c) = Except.ok n2)
    (h3 : env.scrape_company_website (Value.vstr c) = Except.ok n3)
    (h4 : env.search_tech_events (Value.vstr c) = Except.ok n4) :
    fetch_company_news env s
      = [("general_news", n1), ("tech_news", n2), ("website_info", n3), ("events", n4)] := by
  unfold fetch_company_news
  rw [hkey]
  simp [pyTruthy, hc, h1, h2, h3, h4]

theorem fetch_linkedin_populated (env : Env) (s : EmailState) (c : String) (up : Value)
    (hkey : dgetD s.job_information "company" (Value.vstr "") = Value.vstr c)
    (hc : (c == "") = false)
    (h1 : env.get_company_updates (Value.vstr c) = Except.ok up) :
    fetch_linkedin_data env s
      = [("company_updates", up), ("receiver_posts", Value.vlist []),
         ("shared_connections", Value.vlist [])] := by
  unfold fetch_linkedin_data
  rw [hkey]
  simp [pyTruthy, hc, h1]

/-- Claim C2 (confirmed, with the lookup collaborators modelled from the
spec): on a valid Contextual request whose code-hosting lookup fails, that
bucket equals its documented empty-default shape, the news and
professional-network buckets are unaffected (they carry exactly the fetched
records), extraction does not set the state error, and with a succeeding
text-generation backend the overall request still succeeds. -/
theorem claim_c2 (env : Env) (rn rt sn se u c jt tone msg : String)
    (n1 n2 n3 n4 up : Value) (rr sr jr : Dict) (stub : Nat → ModelCall → String)
    (hu : (u == "") = false)
    (hcb : (c == "") = false)
    (hgh : env.get_user_info (Value.vstr u) = Except.error msg)
    (h1 : env.search_company_news (Value.vstr c) = Except.ok n1)
    (h2 : env.get_company_tech_news (Value.vstr c) = Except.ok n2)
    (h3 : env.scrape_company_website (Value.vstr c) = Except.ok n3)
    (h4 : env.search_tech_events (Value.vstr c) = Except.ok n4)
    (hli : env.get_company_updates (Value.vstr c) = Except.ok up)
    (hm : ∀ n call, env.model n call = Except.ok (stub n call)) :
    dget? (extract_context env (validate_input (initial_state (mk_receiver rn rt rr)
        (mk_sender sn se (("github_username", Value.vstr u) :: sr))
        (mk_job c jt jr) "contextual" tone))).contextual_data "github_data"
      = some (Value.vdict github_empty_default)
    ∧ dget? (extract_context env (validate_input (initial_state (mk_receiver rn rt rr)
        (mk_sender sn se (("github_username", Value.vstr u) :: sr))
        (mk_job c jt jr) "contextual" tone))).contextual_data "company_news"
      = some (Value.vdict [("general_news", n1), ("tech_news", n2),
          ("website_info", n3), ("events", n4)])
    ∧ dget? (extract_context env (validate_input (initial_state (mk_receiver rn rt rr)
        (mk_sender sn se (("github_username", Value.vstr u) :: sr))
        (mk_job c jt jr) "contextual" tone))).contextual_data "linkedin_data"
      = some (Value.vdict [("company_updates", up), ("receiver_posts", Value.vlist []),
          ("shared_connections", Value.vlist [])])
    ∧ (extract_context env (validate_input (initial_state (mk_receiver rn rt rr)
        (mk_sender sn se (("github_username", Value.vstr u) :: sr))
        (mk_job c jt jr) "contextual" tone))).error = none
    ∧ dget? (generate_email env (mk_receiver rn rt rr)
        (mk_sender sn se (("github_username", Value.vstr u) :: sr))
        (mk_job c jt jr) "contextual" tone) "success" = some (Value.vbool true) := by
  have hv : validate_input (initial_state (mk_receiver rn rt rr)
      (mk_sender sn se (("github_username", Value.vstr u) :: sr))
      (mk_job c jt jr) "contextual" tone)
      = initial_state (mk_receiver rn rt rr)
          (mk_sender sn se (("github_username", Value.vstr u) :: sr))
          (mk_job c jt jr) "contextual" tone := by
    unfold validate_input initial_state mk_receiver mk_sender mk_job
    simp
  have hgithub : fetch_github_data env (initial_state (mk_receiver rn rt rr)
      (mk_sender sn se (("github_username", Value.vstr u) :: sr))
      (mk_job c jt jr) "contextual" tone) = github_empty_default :=
    fetch_github_default_on_failure env _ u msg rfl hu hgh
  have hnews : fetch_company_news env (initial_state (mk_receiver rn rt rr)
      (mk_sender sn se (("github_username", Value.vstr u) :: sr))
      (mk_job c jt jr) "contextual" tone)
      = [("general_news", n1), ("tech_news", n2), ("website_info", n3), ("events", n4)] :=
    fetch_company_news_populated env _ c n1 n2 n3 n4 rfl hcb h1 h2 h3 h4
  have hlink : fetch_linkedin_data env (initial_state (mk_receiver rn rt rr)
      (mk_sender sn se (("github_username", Value.vstr u) :: sr))
      (mk_job c jt jr) "contextual" tone)
      = [("company_updates", up), ("receiver_posts", Value.vlist []),
         ("shared_connections", Value.vlist [])] :=
    fetch_linkedin_populated env _ c up rfl hcb hli
  refine ⟨?_, ?_, ?_, ?_, ?_⟩
  · rw [hv]
    have hA : dget? (extract_context env (initial_state (mk_receiver rn rt rr)
        (mk_sender sn se (("github_username", Value.vstr u) :: sr))
        (mk_job c jt jr) "contextual" tone)).contextual_data "github_data"
        = some (Value.vdict (fetch_github_data env (initial_state (mk_receiver rn rt rr)
            (mk_sender sn se (("github_username", Value.vstr u) :: sr))
            (mk_job c jt jr) "contextual" tone))) := rfl
    rw [hA, hgithub]
  · rw [hv]
    have hB : dget? (extract_context env (initial_state (mk_receiver rn rt rr)
        (mk_sender sn se (("github_username", Value.vstr u) :: sr))
        (mk_job c jt jr) "contextual" tone)).contextual_data "company_news"
        = some (Value.vdict (fetch_company_news env (initial_state (mk_receiver rn rt rr)
            (mk_sender sn se (("github_username", Value.vstr u) :: sr))
            (mk_job c jt jr) "contextual" tone))) := rfl
    rw [hB, hnews]
  · rw [hv]
    have hC : dget? (extract_context env (initial_state (mk_receiver rn rt rr)
        (mk_sender sn se (("github_username", Value.vstr u) :: sr))
        (mk_job c jt jr) "contextual" tone)).contextual_data "linkedin_data"
        = some (Value.vdict (fetch_linkedin_data env (initial_state (mk_receiver rn rt rr)
            (mk_sender sn se (("github_username", Value.vstr u) :: sr))
            (mk_job c jt jr) "contextual" tone))) := rfl
    rw [hC, hlink]
  · rw [hv]
    rfl
  · have hroute : route_email_type "contextual" = some GenNode.contextual := rfl
    have hw := run_workflow_ok env (initial_state (mk_receiver rn rt rr)
      (mk_sender sn se (("github_username", Value.vstr u) :: sr))
      (mk_job c jt jr) "contextual" tone) 0 GenNode.contextual hroute
    rw [hv] at hw
    obtain ⟨call, hcall⟩ : ∃ call, contextual_email_call (extract_context env
        (initial_state (mk_receiver rn rt rr)
          (mk_sender sn se (("github_username", Value.vstr u) :: sr))
          (mk_job c jt jr) "contextual" tone)) = Except.ok call := ⟨_, rfl⟩
    have hgen : run_generate GenNode.contextual env (extract_context env
        (initial_state (mk_receiver rn rt rr)
          (mk_sender sn se (("github_username", Value.vstr u) :: sr))
          (mk_job c jt jr) "contextual" tone)) 0
        = ({ extract_context env (initial_state (mk_receiver rn rt rr)
              (mk_sender sn se (("github_username", Value.vstr u) :: sr))
              (mk_job c jt jr) "contextual" tone)
             with generated_email := some (stub 0 call) }, 1) := by
      simp [run_generate, generate_contextual_email, hcall, hm 0 call]
    rw [hgen] at hw
    obtain ⟨call2, hcall2⟩ : ∃ call2, subject_call
        { extract_context env (initial_state (mk_receiver rn rt rr)
            (mk_sender sn se (("github_username", Value.vstr u) :: sr))
            (mk_job c jt jr) "contextual" tone)
          with generated_email := some (stub 0 call) } = Except.ok call2 := ⟨_, rfl⟩
    have herrf : errTruthy ({ extract_context env (initial_state (mk_receiver rn rt rr)
        (mk_sender sn se (("github_username", Value.vstr u) :: sr))
        (mk_job c jt jr) "contextual" tone)
        with generated_email := some (stub 0 call) } : EmailState).error = false := rfl
    have hfin : finalize_email env
        { extract_context env (initial_state (mk_receiver rn rt rr)
            (mk_sender sn se (("github_username", Value.vstr u) :: sr))
            (mk_job c jt jr) "contextual" tone)
          with generated_email := some (stub 0 call) } 1
        = ({ extract_context env (initial_state (mk_receiver rn rt rr)
              (mk_sender sn se (("github_username", Value.vstr u) :: sr))
              (mk_job c jt jr) "contextual" tone)
             with generated_email := some (stub 0 call),
                  email_subject := some (stub 1 call2).trim }, 2) := by
      simp [finalize_email, herrf, hcall2, hm 1 call2]
    rw [hfin] at hw
    simp only [generate_email, generate_email_from, hw, state_to_result_success]
    rfl

/-- Claim C2 witness: the sample Contextual request against an environment
whose code-hosting lookup is down and whose other collaborators succeed. -/
theorem claim_c2_witness :
    dget? (generate_email github_down_env
      (mk_receiver "Alice" "Engineering Manager" [])
      (mk_sender "Bob" "b@y.com" [("github_username", Value.vstr "bob-dev")])
      (mk_job "Acme" "Backend Engineer" []) "contextual" "friendly") "success"
      = some (Value.vbool true) :=
  (claim_c2 github_down_env "Alice" "Engineering Manager" "Bob" "b@y.com" "bob-dev"
    "Acme" "Backend Engineer" "friendly" "rate limited"
    (Value.vlist [Value.vstr "news"]) (Value.vlist []) (Value.vdict [])
    (Value.vlist []) (Value.vlist [Value.vstr "update"]) [] [] []
    (fun _ _ => "Hello Alice...") rfl rfl rfl rfl rfl rfl rfl rfl
    (fun _ _ => rfl)).2.2.2.2
